import Mathlib

/-!
Shallow embedding of `src/main.py` (pdf-slide-extractor), a Flask app with two
endpoints, `/extract-text` and `/generate-apkg`.  JSON values are modelled by
`JVal`; Python truthiness by `truthy`; raw card mappings by association lists
(Python dicts have unique keys, the first binding wins).  The Google-Drive
side effects (`find_matching_folder_for_pdf`, the network part of
`download_images_from_drive`) and the local `images` directory listing are
modelled as an environment `Env` supplied to the handler; everything after
those effects is translated line by line from the source.  Python string
primitives (`lower`, `endswith`, `strip`, `zfill`, single-character
`replace`) are modelled over character lists; for `lower`/`strip` the ASCII
behaviour is used, which agrees with Python on the file names and page text
the pipeline handles.
-/

/-- JSON values, as produced by `json.loads` / Flask's `request.get_json`. -/
inductive JVal where
  | jnull
  | jbool (b : Bool)
  | jnum (n : Int)
  | jstr (s : String)
  | jarr (xs : List JVal)
  | jobj (fields : List (String × JVal))

/-- Python truthiness (`bool(x)`) for the JSON values above:
`None`, `False`, `0`, `""`, `[]`, and an empty dict are falsy. -/
def truthy : JVal → Bool
  | .jnull => false
  | .jbool b => b
  | .jnum n => n != 0
  | .jstr s => s != ""
  | .jarr xs => !xs.isEmpty
  | .jobj fs => !fs.isEmpty

/-- `d.get(k)` on a dict modelled as an association list (first binding wins;
Python dicts cannot hold duplicate keys, so this is faithful). -/
def lookupJ (c : List (String × JVal)) (k : String) : Option JVal :=
  match c with
  | [] => none
  | (k2, v) :: rest => if k2 = k then some v else lookupJ rest k

/-- `d.get(k, default)`. -/
def getD (c : List (String × JVal)) (k : String) (d : JVal) : JVal :=
  (lookupJ c k).getD d

mutual
/-- Python `str()` on a JSON value (`str(num)` at `src/main.py:180`, the
f-strings at lines 166 and 249).  Escaping inside `repr`'d strings is elided;
the pipeline only ever applies `str` to numbers and strings. -/
def pyStr : JVal → String
  | .jnull => "None"
  | .jbool true => "True"
  | .jbool false => "False"
  | .jnum n => toString n
  | .jstr s => s
  | .jarr xs => "[" ++ pyReprList xs ++ "]"
  | .jobj fs => "\x7b" ++ pyReprObj fs ++ "\x7d"

/-- Python `repr()` on a JSON value (used by `str` on containers). -/
def pyRepr : JVal → String
  | .jnull => "None"
  | .jbool true => "True"
  | .jbool false => "False"
  | .jnum n => toString n
  | .jstr s => "\x27" ++ s ++ "\x27"
  | .jarr xs => "[" ++ pyReprList xs ++ "]"
  | .jobj fs => "\x7b" ++ pyReprObj fs ++ "\x7d"

/-- Comma-separated `repr`s of list elements. -/
def pyReprList : List JVal → String
  | [] => ""
  | [v] => pyRepr v
  | v :: vs => pyRepr v ++ ", " ++ pyReprList vs

/-- Comma-separated `repr`s of dict entries. -/
def pyReprObj : List (String × JVal) → String
  | [] => ""
  | [(k, v)] => "\x27" ++ k ++ "\x27: " ++ pyRepr v
  | (k, v) :: fs => "\x27" ++ k ++ "\x27: " ++ pyRepr v ++ ", " ++ pyReprObj fs
end

/-- Python `s.lower()` (ASCII case folding, which is what the matched file
names use). -/
def pyLower (s : String) : String := ⟨s.data.map Char.toLower⟩

/-- Python `s.endswith(t)`. -/
def pyEndsWith (s t : String) : Bool := t.data.isSuffixOf s.data

/-- Python `s.strip()`: remove leading and trailing whitespace. -/
def pyStrip (s : String) : String :=
  ⟨((s.data.dropWhile Char.isWhitespace).reverse.dropWhile Char.isWhitespace).reverse⟩

/-- Python `s.replace(" ", "_")` (`src/main.py:166`): single-character
replacement is a character-wise map. -/
def replaceSpaces (s : String) : String :=
  ⟨s.data.map fun c => if c = ' ' then '_' else c⟩

/-- Python `s.zfill(w)`: pad with leading zeros to width `w`, keeping a
leading sign in front of the padding. -/
def zfill (w : Nat) (s : String) : String :=
  if w ≤ s.length then s
  else match s.data with
    | c :: rest =>
        if c = '-' || c = '+' then
          ⟨c :: List.replicate (w - s.length) '0' ++ rest⟩
        else ⟨List.replicate (w - s.length) '0' ++ s.data⟩
    | [] => ⟨List.replicate w '0'⟩

/-- The per-card normalization result computed at `src/main.py:173-177`
(`q`, `a`, `e`, `nums`).  Values are arbitrary JSON values because `dict.get`
returns whatever the caller supplied. -/
structure NormalizedCard where
  question : JVal
  answer : JVal
  explanation : JVal
  slideNumbers : List JVal

/-- `sn if isinstance(sn, list) else [sn]` (`src/main.py:177`). -/
def coerceNums : JVal → List JVal
  | .jarr xs => xs
  | v => [v]

/-- `sn = c.get("slide_number") or idx; nums = sn if isinstance(sn, list)
else [sn]` (`src/main.py:176-177`).  A missing key gives Python `None`,
modelled by `.jnull`; the `or` keeps `sn` only when truthy. -/
def slideNums (idx : Nat) (c : List (String × JVal)) : List JVal :=
  let snRaw := (lookupJ c "slide_number").getD .jnull
  coerceNums (if truthy snRaw then snRaw else .jnum idx)

/-- Lines 173-177 of `src/main.py`: only the lowercase keys are consulted,
and `dict.get` keeps a present-but-falsy value for the three text fields. -/
def normalizeCard (idx : Nat) (c : List (String × JVal)) : NormalizedCard :=
  { question := getD c "question" (.jstr ("Card " ++ toString idx))
    answer := getD c "answer" (.jstr "")
    explanation := getD c "explanation" (.jstr "")
    slideNumbers := slideNums idx c }

/-- A candidate image pool: a directory path together with its `os.listdir`
listing.  `none` models a folder that is `None`/empty-string or fails the
`os.path.isdir` check at `src/main.py:182`. -/
abbrev Pool := String × List String

/-- `IMAGE_FOLDER = "images"` (`src/main.py:27`). -/
def IMAGE_FOLDER : String := "images"

/-- `MEDIA_EXTS = (".png", ".jpg", ".jpeg")` (`src/main.py:30`). -/
def MEDIA_EXTS : List String := [".png", ".jpg", ".jpeg"]

/-- `name.lower().endswith(MEDIA_EXTS)` (`src/main.py:91`). -/
def matchesMediaExt (name : String) : Bool :=
  MEDIA_EXTS.any fun ext => pyEndsWith (pyLower name) ext

/-- `download_images_from_drive` (`src/main.py:82-107`), given the Drive
listing of the folder (file names, in listing order): files whose lowered
name ends in a media extension are written to `dest_folder` (the thumbnail
optimization at lines 99-104 is best-effort and keeps the path), and the
list of written paths is returned. -/
def download_images_from_drive (dest_folder : String) (files : List String) :
    List String :=
  (files.filter matchesMediaExt).map fun name => dest_folder ++ "/" ++ name

/-- `f"<img src='{name}'>"` (`src/main.py:186`). -/
def imgTag (name : String) : String := "<img src=\x27" ++ name ++ "\x27>"

/-- `suffix = f"-{str(num).zfill(5)}.jpg"` (`src/main.py:180`). -/
def suffixFor (num : JVal) : String := "-" ++ zfill 5 (pyStr num) ++ ".jpg"

/-- The inner scan at `src/main.py:183-187`: the first listing entry whose
lowered name ends in the suffix yields `(os.path.join(folder, name),
f"<img src='{name}'>")`; the `break` stops this (and only this) loop. -/
def findInPool (pool : Option Pool) (sfx : String) : Option (String × String) :=
  match pool with
  | none => none
  | some (dir, names) =>
      (names.find? fun name => pyEndsWith (pyLower name) sfx).map
        fun name => (dir ++ "/" ++ name, imgTag name)

/-- The `for folder in (tmp_img_folder, IMAGE_FOLDER)` loop at
`src/main.py:181-187` for one slide number: both pools are scanned (the
`break` at line 187 only exits the inner listing scan), remote pool first,
each pool contributing at most its first match. -/
def resolveNum (tmp loc : Option Pool) (num : JVal) : List (String × String) :=
  (findInPool tmp (suffixFor num)).toList ++ (findInPool loc (suffixFor num)).toList

/-- The `for num in nums` loop at `src/main.py:179-187`: the matches of every
slide number, in order.  Each element is a `(media path, img tag)` pair. -/
def resolveCard (tmp loc : Option Pool) (nums : List JVal) : List (String × String) :=
  nums.flatMap (resolveNum tmp loc)

/-- One entry of the `processed` list built at `src/main.py:188-194`. -/
structure Processed where
  question : JVal
  answer : JVal
  explanation : JVal
  image : String
  slide_number : List JVal

/-- The body of the per-card loop at `src/main.py:172-194` for the card at
1-based position `idx`. -/
def processOne (tmp loc : Option Pool) (idx : Nat) (fs : List (String × JVal)) :
    Processed :=
  let nc := normalizeCard idx fs
  let pairs := resolveCard tmp loc nc.slideNumbers
  { question := nc.question
    answer := nc.answer
    explanation := nc.explanation
    image := String.join (pairs.map Prod.snd)
    slide_number := nc.slideNumbers }

/-- The media paths one card appends to `media_files` (`src/main.py:185`). -/
def cardMediaList (tmp loc : Option Pool) (idx : Nat) (fs : List (String × JVal)) :
    List String :=
  (resolveCard tmp loc (normalizeCard idx fs).slideNumbers).map Prod.fst

/-- The per-card loop at `src/main.py:172-194`, carrying the 1-based
`enumerate` index: yields the `processed` list and the media paths appended
to `media_files`, or `none` when a card is not a mapping (`c.get` then
raises `AttributeError`, caught at line 250 as a 500). -/
def processCardsAux (tmp loc : Option Pool) : Nat → List JVal → Option (List Processed × List String)
  | _, [] => some ([], [])
  | idx, c :: rest =>
      match c with
      | .jobj fs =>
          match processCardsAux tmp loc (idx + 1) rest with
          | some (ps, ms) =>
              some (processOne tmp loc idx fs :: ps, cardMediaList tmp loc idx fs ++ ms)
          | none => none
      | _ => none

/-- A note added to the deck at `src/main.py:233-244`: the five field values,
in model field order (Question, Answer, Explanation, Image, Slide Number). -/
structure AnkiNote where
  fields : List JVal

/-- Lines 234-243: the note built from one processed card; the slide-number
field is `",".join(str(x) for x in note["slide_number"])`. -/
def mkNote (p : Processed) : AnkiNote :=
  ⟨[p.question, p.answer, p.explanation, .jstr p.image,
    .jstr (String.intercalate "," (p.slide_number.map pyStr))]⟩

/-- The observable outcome of `/generate-apkg`: an error response
(`jsonify({"error": msg}), code`) or the `.apkg` success response carrying
the deck name, the assembled notes, and the media manifest passed to
`Package(deck, media_files=media_files)` at `src/main.py:247`. -/
inductive Resp where
  | err (code : Nat) (msg : String)
  | ok (deck_name : JVal) (notes : List AnkiNote) (media_files : List String)

/-- The media manifest of a response, when it has one. -/
def Resp.media : Resp → Option (List String)
  | .err _ _ => none
  | .ok _ _ m => some m

/-- The notes of a response, when it has them. -/
def Resp.notes : Resp → Option (List AnkiNote)
  | .err _ _ => none
  | .ok _ n _ => some n

/-- Outcome of the Drive interaction attempted at `src/main.py:163-167` when
`lecture_file_id` is truthy: `fail` models an exception inside the `try`
(caught at line 168, leaving `media_files = []`), `noFolder` a falsy
`folder_id`, and `found files` a matched folder with the given image-file
listing. -/
inductive DriveLookup where
  | fail
  | noFolder
  | found (files : List String)

/-- The ambient effects of one `/generate-apkg` request: the Drive outcome,
the listing of the local `images` fallback folder (`none` when it is not a
directory), and `json.loads` as applied to a string payload at
`src/main.py:143`. -/
structure Env where
  drive : DriveLookup
  localImages : Option (List String)
  loads : String → Option JVal

/-- Lines 160-167: when `lecture_file_id` is truthy and a folder with images
is found, `tmp_img_folder = f"/tmp/{deck_name.replace(' ','_')}"` is
populated by `download_images_from_drive` and `media_files` starts as the
downloaded paths; otherwise `tmp_img_folder` stays `None` and `media_files`
stays empty. -/
def driveSetup (env : Env) (deck_name lecture_file_id : JVal) :
    Option Pool × List String :=
  if truthy lecture_file_id then
    match env.drive with
    | .found files =>
        let dest := "/tmp/" ++ replaceSpaces (pyStr deck_name)
        (some (dest, files.filter matchesMediaExt),
          download_images_from_drive dest files)
    | _ => (none, [])
  else (none, [])

/-- The local fallback pool: `IMAGE_FOLDER` with its listing, when it is a
directory (`src/main.py:181-183`). -/
def localPool (env : Env) : Option Pool :=
  env.localImages.map fun l => (IMAGE_FOLDER, l)

/-- `src/main.py:155-249` after the card list, deck name and lecture file id
have been extracted: the `if not raw_cards` check, the Drive block, the
per-card loop, deck assembly and packaging.  Iterating a truthy non-list
`raw_cards` (or a card that is not a mapping) raises and is caught at line
250 as a 500. -/
def run_generate (env : Env) (raw_cards deck_name lecture_file_id : JVal) : Resp :=
  if truthy raw_cards then
    let setup := driveSetup env deck_name lecture_file_id
    match raw_cards with
    | .jarr cards =>
        match processCardsAux setup.1 (localPool env) 1 cards with
        | some r => .ok deck_name (r.1.map mkNote) (setup.2 ++ r.2)
        | none => .err 500 "Internal server error"
    | _ => .err 500 "Internal server error"
  else .err 400 "Missing cards"

/-- Lines 147-154: shape dispatch on the parsed payload.  A top-level list
is the card list with defaults; a mapping is read with `data.get`; anything
else (including Python `None` from a silently-failed parse and a string that
survived the second decode) has no `.get`/is not iterable, so the
`AttributeError` is caught at line 250 as a 500. -/
def dispatch (env : Env) (data : Option JVal) : Resp :=
  match data with
  | some (.jarr cards) => run_generate env (.jarr cards) (.jstr "Lecture Deck") .jnull
  | some (.jobj fs) =>
      run_generate env (getD fs "cards" (.jarr []))
        (getD fs "deck_name" (.jstr "Lecture Deck"))
        ((lookupJ fs "lecture_file_drive_id").getD .jnull)
  | _ => .err 500 "Internal server error"

/-- The `/generate-apkg` handler (`src/main.py:134-252`).  `body` is the
result of `request.get_json(silent=True)`: `none` when the body is not valid
JSON.  A string payload is decoded a second time with `json.loads`
(lines 141-146), answering 400 "Bad JSON" when that fails. -/
def generate_apkg (env : Env) (body : Option JVal) : Resp :=
  match body with
  | some (.jstr s) =>
      match env.loads s with
      | none => .err 400 "Bad JSON"
      | some v => dispatch env (some v)
  | other => dispatch env other

/-- The observable outcome of `/extract-text` (`src/main.py:110-131`). -/
inductive ExtractResp where
  | err (code : Nat) (msg : String)
  | ok (slides : List (Nat × String))
deriving DecidableEq

/-- The `/extract-text` handler: the uploaded PDF is modelled as the list of
its pages' `page.get_text()` strings (`none` when no `file` field was sent).
Lines 121-124 keep, in page order, the 1-based pages whose stripped text is
non-empty, paired with the stripped text. -/
def extract_text (file : Option (List String)) : ExtractResp :=
  match file with
  | none => .err 400 "No file uploaded"
  | some pages =>
      .ok (((List.enumFrom 1 pages).filter fun p => pyStrip p.2 != "").map
        fun p => (p.1, pyStrip p.2))

example : (normalizeCard 1 [("Question", .jstr "Q")]).question = .jstr "Card 1" := rfl
example : (normalizeCard 1 [("question", .jstr "Q")]).question = .jstr "Q" := rfl
example : (normalizeCard 3 []).question = .jstr "Card 3" := rfl
example : (normalizeCard 2 [("slide_number", .jnum 0)]).slideNumbers = [.jnum 2] := rfl
example : zfill 5 (pyStr (.jnum 7)) = "00007" := by decide
example : pyEndsWith (pyLower "a-00001.JPG") "-00001.jpg" = true := by decide
example : pyStrip "  hi \n" = "hi" := by decide

example :
    extract_text (some ["", "  ", "alpha", " beta \n"]) =
      .ok [(3, "alpha"), (4, "beta")] := by decide

/-! ## Helper lemmas -/

theorem lookupJ_cons_ne (k k2 : String) (v : JVal) (c : List (String × JVal))
    (h : k2 ≠ k) : lookupJ ((k2, v) :: c) k = lookupJ c k := by
  simp [lookupJ, h]

theorem normalizeCard_eq_of_lookups (idx : Nat) (c c2 : List (String × JVal))
    (hq : lookupJ c "question" = lookupJ c2 "question")
    (ha : lookupJ c "answer" = lookupJ c2 "answer")
    (he : lookupJ c "explanation" = lookupJ c2 "explanation")
    (hs : lookupJ c "slide_number" = lookupJ c2 "slide_number") :
    normalizeCard idx c = normalizeCard idx c2 := by
  simp [normalizeCard, getD, slideNums, hq, ha, he, hs]

theorem slideNums_ne_nil (idx : Nat) (c : List (String × JVal)) :
    slideNums idx c ≠ [] := by
  have hdef : slideNums idx c =
      coerceNums (if truthy ((lookupJ c "slide_number").getD .jnull) = true
        then (lookupJ c "slide_number").getD .jnull else .jnum idx) := rfl
  rw [hdef]
  cases hv : (lookupJ c "slide_number").getD .jnull with
  | jarr xs =>
      split
      next h =>
        cases xs with
        | nil => simp [truthy] at h
        | cons a as => simp [coerceNums]
      next h => simp [coerceNums]
  | jnull => simp [truthy, coerceNums]
  | jbool b => split <;> simp [coerceNums]
  | jnum n => split <;> simp [coerceNums]
  | jstr s => split <;> simp [coerceNums]
  | jobj fs => split <;> simp [coerceNums]

theorem processObjs_eq (tmp loc : Option Pool) (cards : List (List (String × JVal))) :
    ∀ idx, processCardsAux tmp loc idx (cards.map .jobj) =
      some ((List.enumFrom idx cards).map fun ic => processOne tmp loc ic.1 ic.2,
        (List.enumFrom idx cards).flatMap fun ic => cardMediaList tmp loc ic.1 ic.2) := by
  induction cards with
  | nil => intro idx; rfl
  | cons c cs ih =>
      intro idx
      simp [processCardsAux, List.enumFrom, ih (idx + 1)]

/-! ## Claim C2 -/

/-- C2: counterexample.  A card keyed `Question` does not produce the same
NormalizedCard as the same card keyed `question`: the capitalized key is
ignored, so the question falls back to the default `"Card 1"` instead of
`"Q"`. -/
theorem normalizeCard_capitalized_key_differs :
    (normalizeCard 1 [("Question", .jstr "Q")]).question = .jstr "Card 1" ∧
    (normalizeCard 1 [("question", .jstr "Q")]).question = .jstr "Q" ∧
    ("Card 1" : String) ≠ "Q" :=
  ⟨rfl, rfl, by decide⟩

/-- C2 (amended): card normalization consults only the lowercase keys
`question`/`answer`/`explanation`/`slide_number` — two raw cards agreeing on
those four keys normalize identically, so capitalized keys are ignored — and
for each text field `dict.get` keeps a present value even when it is empty;
the default applies only when the lowercase key is absent. -/
theorem normalizeCard_lowercase_keys_only (idx : Nat) (c c2 : List (String × JVal)) :
    ((∀ k, k ∈ ["question", "answer", "explanation", "slide_number"] →
        lookupJ c k = lookupJ c2 k) →
      normalizeCard idx c = normalizeCard idx c2) ∧
    (normalizeCard idx c).question =
      (lookupJ c "question").getD (.jstr ("Card " ++ toString idx)) ∧
    (normalizeCard idx c).answer = (lookupJ c "answer").getD (.jstr "") ∧
    (normalizeCard idx c).explanation = (lookupJ c "explanation").getD (.jstr "") := by
  refine ⟨fun h => normalizeCard_eq_of_lookups idx c c2
    (h _ (by simp)) (h _ (by simp)) (h _ (by simp)) (h _ (by simp)), rfl, rfl, rfl⟩

/-- C2 witness: a concrete instance of the amended claim — a card whose only
key is the capitalized `Question` normalizes like the empty card. -/
theorem normalizeCard_lowercase_keys_only_witness :
    normalizeCard 1 [("Question", .jstr "Z")] = normalizeCard 1 [] :=
  (normalizeCard_lowercase_keys_only 1 [("Question", .jstr "Z")] []).1
    (by intro k hk; simp at hk; rcases hk with rfl | rfl | rfl | rfl <;> rfl)

/-! ## Claim C3 -/

/-- C3: counterexample.  A card whose `image` markup embeds the filename
`pic.jpg`, which is present in the local pool, still resolves positionally:
the attached media is `images/other-00001.jpg` (the suffix match for slide
number 1), not `images/pic.jpg`. -/
theorem resolveCard_ignores_embedded_filename :
    (processCardsAux none (some ("images", ["pic.jpg", "other-00001.jpg"])) 1
        [.jobj [("image", .jstr (imgTag "pic.jpg")), ("slide_number", .jnum 1)]]).map
        (fun r => r.2) = some ["images/other-00001.jpg"] ∧
    (processCardsAux none (some ("images", ["pic.jpg", "other-00001.jpg"])) 1
        [.jobj [("image", .jstr (imgTag "pic.jpg")), ("slide_number", .jnum 1)]]).map
        (fun r => r.2) ≠ some ["images/pic.jpg"] :=
  ⟨by decide, by decide⟩

/-- C3 (amended): the pipeline never reads an image-markup key at all —
adding any `image` entry to a raw card changes nothing about its processing,
so resolution is always positional by slide-number suffix and no explicit
filename lookup exists. -/
theorem processCards_image_markup_irrelevant (tmp loc : Option Pool) (idx : Nat)
    (v : JVal) (c : List (String × JVal)) (rest : List JVal) :
    processCardsAux tmp loc idx (.jobj (("image", v) :: c) :: rest) =
      processCardsAux tmp loc idx (.jobj c :: rest) := by
  have hnc : normalizeCard idx (("image", v) :: c) = normalizeCard idx c :=
    normalizeCard_eq_of_lookups idx _ _
      (lookupJ_cons_ne _ _ _ _ (by decide)) (lookupJ_cons_ne _ _ _ _ (by decide))
      (lookupJ_cons_ne _ _ _ _ (by decide)) (lookupJ_cons_ne _ _ _ _ (by decide))
  simp [processCardsAux, processOne, cardMediaList, hnc]

/-! ## Claim C7 -/

/-- C7: counterexample.  A card supplying an empty `question` keeps it: the
normalized question is the empty string, so the invariant "question is never
empty" fails on the code. -/
theorem normalizeCard_empty_question_kept :
    (normalizeCard 1 [("question", .jstr "")]).question = .jstr "" := rfl

/-- C7 (amended): `slideNumbers` is never empty; the question defaults to
`"Card {idx}"` whenever the `question` key is absent (but a present empty
value is kept, so the question can be empty); and index assignment is 1-based
in input order — the pipeline processes `cards` with `enumerate(..., start=1)`
and no flattening. -/
theorem normalizeCard_invariants (idx : Nat) (c : List (String × JVal)) :
    (normalizeCard idx c).slideNumbers ≠ [] ∧
    (lookupJ c "question" = none →
      (normalizeCard idx c).question = .jstr ("Card " ++ toString idx)) ∧
    ∀ tmp loc (cards : List (List (String × JVal))),
      processCardsAux tmp loc 1 (cards.map .jobj) =
        some ((List.enumFrom 1 cards).map fun ic => processOne tmp loc ic.1 ic.2,
          (List.enumFrom 1 cards).flatMap fun ic => cardMediaList tmp loc ic.1 ic.2) := by
  refine ⟨slideNums_ne_nil idx c, fun h => ?_,
    fun tmp loc cards => processObjs_eq tmp loc cards 1⟩
  simp [normalizeCard, getD, h]

/-- C7 witness: the empty card at position 3 has non-empty slide numbers and
the default question `"Card 3"`. -/
theorem normalizeCard_invariants_witness :
    (normalizeCard 3 []).slideNumbers ≠ [] ∧
    (normalizeCard 3 []).question = .jstr "Card 3" :=
  ⟨(normalizeCard_invariants 3 []).1, (normalizeCard_invariants 3 []).2.1 rfl⟩

/-! ## Claim C10 -/

/-- C10: a card whose `slide_number` value is present but falsy (0, an empty
list, null, or an empty string — exactly the values with `truthy _ = false`)
is normalized as if the key were absent, yielding `slideNumbers = [idx]` for
its 1-based position; in particular slide number 0 never yields `[0]`. -/
theorem slideNums_falsy_as_absent (idx : Nat) (v : JVal) (c : List (String × JVal))
    (hv : truthy v = false) (hc : lookupJ c "slide_number" = none) :
    normalizeCard idx (("slide_number", v) :: c) = normalizeCard idx c ∧
    (normalizeCard idx (("slide_number", v) :: c)).slideNumbers = [.jnum idx] ∧
    (1 ≤ idx → (normalizeCard idx (("slide_number", v) :: c)).slideNumbers ≠ [.jnum 0]) := by
  have h1 : slideNums idx (("slide_number", v) :: c) = [.jnum idx] := by
    simp [slideNums, lookupJ, hv, coerceNums]
  have h2 : slideNums idx c = [.jnum idx] := by
    simp [slideNums, hc, truthy, coerceNums]
  have h3 : normalizeCard idx (("slide_number", v) :: c) = normalizeCard idx c := by
    simp [normalizeCard, getD,
      lookupJ_cons_ne _ _ _ _ (by decide : "slide_number" ≠ "question"),
      lookupJ_cons_ne _ _ _ _ (by decide : "slide_number" ≠ "answer"),
      lookupJ_cons_ne _ _ _ _ (by decide : "slide_number" ≠ "explanation"), h1, h2]
  refine ⟨h3, h1, fun hidx heq => ?_⟩
  rw [show (normalizeCard idx (("slide_number", v) :: c)).slideNumbers =
    [JVal.jnum idx] from h1] at heq
  have : (idx : Int) = 0 := by simpa using heq
  omega

/-! ## Claim C4 -/

/-- C4: counterexample.  With a suffix match for slide number 1 in both the
remote pool and the local pool, the card attaches two media paths for that
one slide number: the `break` at `src/main.py:187` only exits the inner scan
of a single folder's listing, so the search does not stop at the first match
across the two pools. -/
theorem resolveNum_two_pools_two_paths :
    (resolveCard (some ("/tmp/D", ["t-00001.jpg"])) (some ("images", ["l-00001.jpg"]))
        [.jnum 1]).map Prod.fst = ["/tmp/D/t-00001.jpg", "images/l-00001.jpg"] ∧
    ((resolveCard (some ("/tmp/D", ["t-00001.jpg"])) (some ("images", ["l-00001.jpg"]))
        [.jnum 1]).map Prod.fst).length = 2 :=
  ⟨by decide, by decide⟩

/-- C4 (amended): for each slide number, each pool contributes at most one
media path — the first file of the pool's listing whose lowered name ends in
`"-" + zfill(5, str(number)) + ".jpg"` — with the remote-downloaded pool
scanned before the local fallback pool; the scan stops at the first match
only within a single pool, so a slide number attaches up to two paths when
both pools contain a match. -/
theorem resolveNum_per_pool_first_match (tmp loc : Option Pool) (num : JVal)
    (nums : List JVal) (d name : String) (names : List String) :
    (resolveNum tmp loc num).length ≤ 2 ∧
    resolveNum tmp loc num =
      (findInPool tmp (suffixFor num)).toList ++ (findInPool loc (suffixFor num)).toList ∧
    (∀ pool : Option Pool, ((findInPool pool (suffixFor num)).toList).length ≤ 1) ∧
    (findInPool (some (d, name :: names)) (suffixFor num) =
      if pyEndsWith (pyLower name) (suffixFor num) then
        some (d ++ "/" ++ name, imgTag name)
      else findInPool (some (d, names)) (suffixFor num)) ∧
    resolveCard tmp loc nums = nums.flatMap (resolveNum tmp loc) := by
  refine ⟨?_, rfl, ?_, ?_, rfl⟩
  · show ((findInPool tmp (suffixFor num)).toList ++
      (findInPool loc (suffixFor num)).toList).length ≤ 2
    cases findInPool tmp (suffixFor num) <;> cases findInPool loc (suffixFor num) <;> simp
  · intro pool
    cases findInPool pool (suffixFor num) <;> simp
  · by_cases h : pyEndsWith (pyLower name) (suffixFor num) = true
    · rw [if_pos h]
      simp [findInPool, List.find?, h]
    · rw [if_neg h]
      simp only [Bool.not_eq_true] at h
      simp [findInPool, List.find?, h]

/-! ## Claims C1, C5, C9: the assembled response on a well-shaped card list -/

theorem run_generate_cons_objs (env : Env) (dn lid : JVal)
    (c : List (String × JVal)) (cs : List (List (String × JVal))) :
    run_generate env (.jarr ((c :: cs).map .jobj)) dn lid =
      .ok dn
        (((List.enumFrom 1 (c :: cs)).map fun ic =>
          processOne (driveSetup env dn lid).1 (localPool env) ic.1 ic.2).map mkNote)
        ((driveSetup env dn lid).2 ++
          (List.enumFrom 1 (c :: cs)).flatMap fun ic =>
            cardMediaList (driveSetup env dn lid).1 (localPool env) ic.1 ic.2) := by
  have h1 : truthy (.jarr ((c :: cs).map .jobj)) = true := by simp [truthy]
  have hstep : run_generate env (.jarr ((c :: cs).map .jobj)) dn lid =
      (if truthy (.jarr ((c :: cs).map .jobj)) = true then
        match processCardsAux (driveSetup env dn lid).1 (localPool env) 1
            ((c :: cs).map .jobj) with
        | some r => Resp.ok dn (r.1.map mkNote) ((driveSetup env dn lid).2 ++ r.2)
        | none => Resp.err 500 "Internal server error"
      else Resp.err 400 "Missing cards") := rfl
  rw [hstep, if_pos h1, processObjs_eq]

/-- C1: counterexample.  Two cards whose slide numbers both resolve to the
local file `images/a-00001.jpg` give a media manifest in which that path
appears twice, not once. -/
theorem generate_apkg_manifest_duplicate :
    Resp.media (generate_apkg ⟨.fail, some ["a-00001.jpg"], fun _ => none⟩
      (some (.jobj [("cards", .jarr [.jobj [], .jobj [("slide_number", .jnum 1)]])]))) =
      some ["images/a-00001.jpg", "images/a-00001.jpg"] ∧
    (["images/a-00001.jpg", "images/a-00001.jpg"] : List String).count
      "images/a-00001.jpg" = 2 :=
  ⟨by decide, by decide⟩

/-- C1 (amended): the media manifest passed to the package serializer is the
concatenation of the downloaded files and each card's resolved paths in
input order, with no de-duplication — every resolution appends its path, so
a file resolved by two cards (or by two slide numbers of one card) appears
once per resolution. -/
theorem generate_media_manifest_no_dedup (env : Env) (dn lid : JVal)
    (c : List (String × JVal)) (cs : List (List (String × JVal))) :
    ∃ notes, run_generate env (.jarr ((c :: cs).map .jobj)) dn lid =
      .ok dn notes
        ((driveSetup env dn lid).2 ++
          (List.enumFrom 1 (c :: cs)).flatMap fun ic =>
            cardMediaList (driveSetup env dn lid).1 (localPool env) ic.1 ic.2) :=
  ⟨_, run_generate_cons_objs env dn lid c cs⟩

/-- C5: counterexample.  A payload whose card list's first element is itself
a list is not flattened: iterating it makes `c.get` raise, and the request
answers 500, producing no notes at all instead of one note per inner card. -/
theorem generate_apkg_nested_cards_500 :
    generate_apkg ⟨.fail, none, fun _ => none⟩
      (some (.jarr [.jarr [.jobj [], .jobj []]])) =
      .err 500 "Internal server error" := rfl

/-- C5 (amended): no flattening is performed.  For a top-level card list
whose elements are all mappings, the number of notes in the assembled deck
equals the number of cards as given; a card list whose first element is
itself a sequence instead makes the per-card loop raise, reported as a 500
internal error. -/
theorem generate_apkg_note_count_no_flattening (env : Env)
    (c : List (String × JVal)) (cs : List (List (String × JVal)))
    (xs rest : List JVal) :
    (∃ notes media,
      generate_apkg env (some (.jarr ((c :: cs).map .jobj))) =
        .ok (.jstr "Lecture Deck") notes media ∧ notes.length = (c :: cs).length) ∧
    generate_apkg env (some (.jarr (.jarr xs :: rest))) =
      .err 500 "Internal server error" := by
  constructor
  · refine ⟨((List.enumFrom 1 (c :: cs)).map fun ic =>
        processOne (driveSetup env (.jstr "Lecture Deck") .jnull).1 (localPool env)
          ic.1 ic.2).map mkNote,
      (driveSetup env (.jstr "Lecture Deck") .jnull).2 ++
        (List.enumFrom 1 (c :: cs)).flatMap fun ic =>
          cardMediaList (driveSetup env (.jstr "Lecture Deck") .jnull).1 (localPool env)
            ic.1 ic.2, ?_, ?_⟩
    · exact run_generate_cons_objs env (.jstr "Lecture Deck") .jnull c cs
    · simp
  · rfl

/-- C9: when the Drive lookup finds an image folder for a truthy lecture
file id, the media manifest handed to the package serializer starts with
every path returned by `download_images_from_drive`, whether or not any
card's resolution referenced it. -/
theorem generate_apkg_manifest_includes_downloads (files : List String)
    (li : Option (List String)) (lo : String → Option JVal) (dn : JVal) (n : Nat)
    (c : List (String × JVal)) (cs : List (List (String × JVal))) :
    ∃ notes rest,
      run_generate ⟨.found files, li, lo⟩ (.jarr ((c :: cs).map .jobj)) dn
          (.jnum ((n : Int) + 1)) =
        .ok dn notes
          (download_images_from_drive ("/tmp/" ++ replaceSpaces (pyStr dn)) files ++ rest) := by
  have htr : truthy (.jnum ((n : Int) + 1)) = true := by
    simp only [truthy, bne_iff_ne, ne_eq, decide_eq_true_eq]
    omega
  have hds : driveSetup ⟨.found files, li, lo⟩ dn (.jnum ((n : Int) + 1)) =
      (some ("/tmp/" ++ replaceSpaces (pyStr dn), files.filter matchesMediaExt),
        download_images_from_drive ("/tmp/" ++ replaceSpaces (pyStr dn)) files) := by
    simp [driveSetup, htr]
  refine ⟨((List.enumFrom 1 (c :: cs)).map fun ic =>
      processOne (some ("/tmp/" ++ replaceSpaces (pyStr dn), files.filter matchesMediaExt))
        (localPool ⟨.found files, li, lo⟩) ic.1 ic.2).map mkNote,
    (List.enumFrom 1 (c :: cs)).flatMap fun ic =>
      cardMediaList (some ("/tmp/" ++ replaceSpaces (pyStr dn), files.filter matchesMediaExt))
        (localPool ⟨.found files, li, lo⟩) ic.1 ic.2, ?_⟩
  rw [run_generate_cons_objs, hds]

/-! ## Claim C6 -/

/-- C6: counterexample.  A request body that is not valid JSON (silent parse
gives Python `None`) is answered 500, not 400; so is a top-level value that
is neither a sequence nor a mapping, such as the number 5. -/
theorem generate_apkg_invalid_json_500 :
    generate_apkg ⟨.fail, none, fun _ => none⟩ none =
      .err 500 "Internal server error" ∧
    generate_apkg ⟨.fail, none, fun _ => none⟩ (some (.jnum 5)) =
      .err 500 "Internal server error" :=
  ⟨rfl, rfl⟩

/-- C6 (amended): a body that is not valid JSON, and a top-level value that
is neither a sequence nor a mapping, fall into the catch-all handler and are
answered 500 "Internal server error"; 400 is returned only for a string
payload whose second decode fails ("Bad JSON") and for an empty resulting
card list ("Missing cards"). -/
theorem generate_apkg_error_codes (env : Env) (b : Bool) (n : Int) (s : String)
    (dn lid : JVal) :
    generate_apkg env none = .err 500 "Internal server error" ∧
    generate_apkg env (some .jnull) = .err 500 "Internal server error" ∧
    generate_apkg env (some (.jbool b)) = .err 500 "Internal server error" ∧
    generate_apkg env (some (.jnum n)) = .err 500 "Internal server error" ∧
    (env.loads s = none → generate_apkg env (some (.jstr s)) = .err 400 "Bad JSON") ∧
    run_generate env (.jarr []) dn lid = .err 400 "Missing cards" ∧
    generate_apkg env (some (.jobj [])) = .err 400 "Missing cards" := by
  refine ⟨rfl, rfl, rfl, rfl, fun h => ?_, rfl, rfl⟩
  show (match env.loads s with
    | none => Resp.err 400 "Bad JSON"
    | some v => dispatch env (some v)) = Resp.err 400 "Bad JSON"
  rw [h]

/-- C6 witness: with a decoder that rejects the inner string, a
double-encoded payload is answered 400 "Bad JSON". -/
theorem generate_apkg_error_codes_witness :
    generate_apkg ⟨.fail, none, fun _ => none⟩ (some (.jstr "not json")) =
      .err 400 "Bad JSON" :=
  (generate_apkg_error_codes ⟨.fail, none, fun _ => none⟩ true 0 "not json"
    .jnull .jnull).2.2.2.2.1 rfl

/-! ## Claim C8 -/

theorem mem_enumFrom_iff {α : Type} (x : Nat × α) :
    ∀ (l : List α) (n : Nat), x ∈ List.enumFrom n l ↔
      (n ≤ x.1 ∧ l[x.1 - n]? = some x.2) := by
  intro l
  induction l with
  | nil => intro n; simp [List.enumFrom]
  | cons a as ih =>
      intro n
      rw [show List.enumFrom n (a :: as) = (n, a) :: List.enumFrom (n + 1) as from rfl]
      rw [List.mem_cons, ih (n + 1)]
      constructor
      · rintro (rfl | ⟨h1, h2⟩)
        · simp
        · refine ⟨by omega, ?_⟩
          rw [show x.1 - n = (x.1 - (n + 1)) + 1 by omega]
          simpa using h2
      · rintro ⟨h1, h2⟩
        by_cases hx : x.1 = n
        · left
          rw [hx, Nat.sub_self] at h2
          simp at h2
          cases x
          simp_all
        · right
          refine ⟨by omega, ?_⟩
          rw [show x.1 - n = (x.1 - (n + 1)) + 1 by omega] at h2
          simpa using h2

theorem mem_extract_aux (pages : List String) (n i : Nat) (t : String) :
    ((i, t) ∈ ((List.enumFrom n pages).filter fun p => pyStrip p.2 != "").map
      fun p => (p.1, pyStrip p.2)) ↔
    (n ≤ i ∧ (pages[i - n]?).map pyStrip = some t ∧ t ≠ "") := by
  rw [List.mem_map]
  constructor
  · rintro ⟨q, hq, hfq⟩
    obtain ⟨hql, hqp⟩ := List.mem_filter.mp hq
    obtain ⟨h1, h2⟩ := (mem_enumFrom_iff q pages n).mp hql
    have hfq2 : (q.1, pyStrip q.2) = (i, t) := hfq
    injection hfq2 with hi ht
    subst hi
    subst ht
    refine ⟨h1, ?_, ?_⟩
    · rw [h2]
      rfl
    · simpa using hqp
  · rintro ⟨h1, h2, h3⟩
    cases hpg : pages[i - n]? with
    | none => rw [hpg] at h2; simp at h2
    | some txt =>
        rw [hpg] at h2
        simp at h2
        refine ⟨(i, txt), ?_, ?_⟩
        · apply List.mem_filter.mpr
          refine ⟨(mem_enumFrom_iff (i, txt) pages n).mpr ⟨h1, by simpa using hpg⟩, ?_⟩
          simpa using h2.trans_ne h3
        · simpa using h2

theorem pairwise_fst_lt_enumFrom {α : Type} :
    ∀ (l : List α) (n : Nat), (List.enumFrom n l).Pairwise fun a b => a.1 < b.1 := by
  intro l
  induction l with
  | nil => intro n; exact List.Pairwise.nil
  | cons a as ih =>
      intro n
      rw [show List.enumFrom n (a :: as) = (n, a) :: List.enumFrom (n + 1) as from rfl]
      refine List.Pairwise.cons ?_ (ih (n + 1))
      intro y hy
      have h2 := ((mem_enumFrom_iff y as (n + 1)).mp hy).1
      exact h2

/-- C8: `/extract-text` returns 400 when no file field is present, and on a
PDF returns exactly the pages whose stripped text is non-empty, in page
order (strictly increasing slide numbers), each entry pairing the 1-based
page number with the stripped text. -/
theorem extract_text_slides_spec (pages : List String) :
    extract_text none = .err 400 "No file uploaded" ∧
    ∃ L, extract_text (some pages) = .ok L ∧
      (∀ i t, (i, t) ∈ L ↔
        (1 ≤ i ∧ (pages[i - 1]?).map pyStrip = some t ∧ t ≠ "")) ∧
      L.Pairwise fun a b => a.1 < b.1 := by
  constructor
  · rfl
  · have hpair : (((List.enumFrom 1 pages).filter fun p => pyStrip p.2 != "").map
        fun p => (p.1, pyStrip p.2)).Pairwise (fun a b => a.1 < b.1) :=
      List.pairwise_map.mpr ((pairwise_fst_lt_enumFrom pages 1).filter _)
    exact ⟨_, rfl, fun i t => mem_extract_aux pages 1 i t, hpair⟩

/-- C10 witness: `slide_number: 0` at position 1 normalizes like the empty
card, to `slideNumbers = [1]`. -/
theorem slideNums_falsy_as_absent_witness :
    normalizeCard 1 [("slide_number", .jnum 0)] = normalizeCard 1 [] ∧
    (normalizeCard 1 [("slide_number", .jnum 0)]).slideNumbers = [.jnum 1] :=
  ⟨(slideNums_falsy_as_absent 1 (.jnum 0) [] rfl rfl).1,
   (slideNums_falsy_as_absent 1 (.jnum 0) [] rfl rfl).2.1⟩
